import Mathlib

/-!
Shallow embedding of `deepchem/models/tensorflow_models/fcnet.py` and of the
example script `examples/gdb7/gdb7_tf_model.py`.

Graph construction is embedded symbolically: every TensorFlow or framework
op the Python code calls (`tf.placeholder`, `model_ops.fully_connected_layer`,
`tf.nn.relu`, `model_ops.dropout`, `model_ops.multitask_logits`,
`tf.gradients`, `tf.sign`, `tf.stop_gradient`, tensor arithmetic, and the
framework-supplied `add_training_cost`, `add_output_ops`,
`add_label_placeholders`, `add_example_weight_placeholders`) is an
uninterpreted constructor of a `Tensor` syntax tree: the Python methods build
a computation graph, and a `Tensor` term is that graph.  Python floats are
embedded as rationals.  Minibatch feed dictionaries are embedded over an
explicit model of numpy values, and the training loops are embedded as
functions from the epoch/batch structure of a run to the trace of checkpoint
saves and the error, if any, the loop raises.
-/

namespace Fcnet

/-- Symbolic TensorFlow graph nodes, exactly the ops `fcnet.py` invokes.
Framework ops are uninterpreted constructors; shapes follow the Python
calls, with `none` standing for the TensorFlow dimension `None`. -/
inductive Tensor where
  | placeholder (name : String) (shape : List (Option Nat))
  | relu (t : Tensor)
  | fullyConnected (input : Tensor) (size : Nat) (weightShape : List Nat)
      (stddev : ℚ) (biasConst : ℚ) (biasShape : List Nat)
  | dropout (t : Tensor) (rate : ℚ) (training : Bool)
  | multitaskLogits (t : Tensor) (nTasks : Nat)
  | squeeze (t : Tensor)
  | addT (a b : Tensor)
  | scalarMul (c : ℚ) (t : Tensor)
  | scalarDiv (t : Tensor) (c : ℚ)
  | sign (t : Tensor)
  | gradient (loss : Tensor) (wrt : Tensor)
  | stopGradient (t : Tensor)
  | tuple (ts : List Tensor)
  | trainingCost (output labels weights : Tensor)
  | labelPlaceholders (nTasks : Nat)
  | weightPlaceholders (nTasks : Nat)
  | outputOps (t : Tensor)

/-- Hyperparameters read by the graph-building methods of `fcnet.py`. -/
structure LayerConfig where
  nFeatures : Nat
  nTasks : Nat
  layerSizes : List Nat
  weightInitStddevs : List ℚ
  biasInitConsts : List ℚ
  dropouts : List ℚ

/-- Embeds the `lengths_set` assertions at the top of every graph-building
method of `fcnet.py`: the Python set `{len(layer_sizes),
len(weight_init_stddevs), len(bias_init_consts), len(dropouts)}` must be a
singleton (all four lengths equal) and `lengths_set.pop()`, the common
length `n_layers`, must be positive.  A failing Python `assert` is
`Except.error` carrying the assertion message. -/
def checkLayerParams (cfg : LayerConfig) : Except String Nat :=
  let lengthsSet : List Nat :=
    [cfg.layerSizes.length, cfg.weightInitStddevs.length,
     cfg.biasInitConsts.length, cfg.dropouts.length].dedup
  if lengthsSet.length = 1 then
    let nLayers := lengthsSet.headD 0
    if 0 < nLayers then .ok nLayers
    else .error "Must have some layers defined."
  else .error "All layer params must have same length."

/-- The validity precondition the assertions enforce, stated directly. -/
def layerParamsOk (cfg : LayerConfig) : Prop :=
  cfg.weightInitStddevs.length = cfg.layerSizes.length ∧
  cfg.biasInitConsts.length = cfg.layerSizes.length ∧
  cfg.dropouts.length = cfg.layerSizes.length ∧
  0 < cfg.layerSizes.length

instance (cfg : LayerConfig) : Decidable (layerParamsOk cfg) := by
  unfold layerParamsOk; infer_instance

/-- One iteration of the hidden-layer loop shared by all four graph-building
methods: `dropout(relu(fully_connected_layer(...)))` with the exact Python
arguments at loop index `i` — output size `layer_sizes[i]`, weight init of
shape `[prev_layer_size, layer_sizes[i]]` and stddev `weight_init_stddevs[i]`,
bias constant `bias_init_consts[i]` of shape `[layer_sizes[i]]`, dropout
rate `dropouts[i]`. -/
def hiddenLayerStep (cfg : LayerConfig) (training : Bool) (prev : Tensor)
    (prevSize i : Nat) : Tensor :=
  let sz := cfg.layerSizes.getD i 0
  .dropout
    (.relu (.fullyConnected prev sz [prevSize, sz]
      (cfg.weightInitStddevs.getD i 0) (cfg.biasInitConsts.getD i 0) [sz]))
    (cfg.dropouts.getD i 0) training

/-- State after the hidden-layer loop: `prev_layer`, `prev_layer_size`, and
the leftover Python loop variable `i` (equal to `n_layers - 1` whenever the
loop ran at least once; the regressor head code reads it only after the
assertions have guaranteed `n_layers > 0`). -/
structure LoopState where
  prevLayer : Tensor
  prevLayerSize : Nat
  lastI : Nat

/-- Embeds `for i in range(n_layers)` over the hidden layers: `fuel` counts
the remaining iterations and `i` is the current loop index into the four
parameter lists. -/
def hiddenLayersAux (cfg : LayerConfig) (training : Bool) :
    Nat → Nat → Tensor → Nat → LoopState
  | 0, i, prev, prevSize =>
      { prevLayer := prev, prevLayerSize := prevSize, lastI := i - 1 }
  | fuel + 1, i, prev, prevSize =>
      hiddenLayersAux cfg training fuel (i + 1)
        (hiddenLayerStep cfg training prev prevSize i) (cfg.layerSizes.getD i 0)

/-- The full hidden-layer stack: the loop starts at `prev_layer = x`,
`prev_layer_size = n_features`, `i = 0` and runs `nLayers` times. -/
def hiddenLayers (cfg : LayerConfig) (training : Bool) (x : Tensor)
    (nLayers : Nat) : LoopState :=
  hiddenLayersAux cfg training nLayers 0 x cfg.nFeatures

/-- Embeds one per-task output head of `TensorflowMultiTaskRegressor.build`
(lines 148-159) and of `TensorflowAdversarialMultiTaskRegressor.model`
(lines 438-449): `tf.squeeze(fully_connected_layer(prev_layer,
size=layer_sizes[i], weight_init shape [prev_layer_size, 1] stddev
weight_init_stddevs[i], bias_init const bias_init_consts[i] shape [1]))`,
where `i` is the leftover hidden-layer loop variable. -/
def regressorHead (cfg : LayerConfig) (st : LoopState) : Tensor :=
  .squeeze (.fullyConnected st.prevLayer (cfg.layerSizes.getD st.lastI 0)
    [st.prevLayerSize, 1] (cfg.weightInitStddevs.getD st.lastI 0)
    (cfg.biasInitConsts.getD st.lastI 0) [1])

/-- Embeds `for task in range(self.n_tasks): output.append(...)`: the loop
variable `task` does not occur in the appended expression, so every head is
the same term. -/
def regressorHeads (cfg : LayerConfig) (st : LoopState) : List Tensor :=
  (List.range cfg.nTasks).map (fun _ => regressorHead cfg st)

/-- Embeds `TensorflowMultiTaskClassifier.build` (fcnet.py lines 24-70):
the `mol_features` placeholder of shape `[None, n_features]`, the asserted
layer-parameter check, the hidden-layer stack, and the `multitask_logits`
output heads on the last layer. -/
def classifierBuild (cfg : LayerConfig) (training : Bool) :
    Except String Tensor :=
  let molFeatures := Tensor.placeholder "mol_features" [none, some cfg.nFeatures]
  match checkLayerParams cfg with
  | .error e => .error e
  | .ok nLayers =>
      let st := hiddenLayers cfg training molFeatures nLayers
      .ok (.multitaskLogits st.prevLayer cfg.nTasks)

/-- Embeds `TensorflowMultiTaskRegressor.build` (fcnet.py lines 103-160). -/
def regressorBuild (cfg : LayerConfig) (training : Bool) :
    Except String (List Tensor) :=
  let molFeatures := Tensor.placeholder "mol_features" [none, some cfg.nFeatures]
  match checkLayerParams cfg with
  | .error e => .error e
  | .ok nLayers =>
      let st := hiddenLayers cfg training molFeatures nLayers
      .ok (regressorHeads cfg st)

/-- Embeds `TensorflowAdversarialMultiTaskClassifier.model` (lines 250-291):
identical to the classifier's `build` except that the input tensor `x` is a
parameter. -/
def advClassifierModel (cfg : LayerConfig) (x : Tensor) (training : Bool) :
    Except String Tensor :=
  match checkLayerParams cfg with
  | .error e => .error e
  | .ok nLayers =>
      let st := hiddenLayers cfg training x nLayers
      .ok (.multitaskLogits st.prevLayer cfg.nTasks)

/-- Embeds `TensorflowAdversarialMultiTaskRegressor.model` (lines 398-450):
identical to the regressor's `build` except that the input tensor `x` is a
parameter. -/
def advRegressorModel (cfg : LayerConfig) (x : Tensor) (training : Bool) :
    Except String (List Tensor) :=
  match checkLayerParams cfg with
  | .error e => .error e
  | .ok nLayers =>
      let st := hiddenLayers cfg training x nLayers
      .ok (regressorHeads cfg st)

/-- The record `construct_graph` returns (the `TensorflowGraph` object with
its session and scope bookkeeping dropped): model output, label and weight
placeholders, and the optional loss. -/
structure TFGraph (Out : Type) where
  output : Out
  labels : Tensor
  weights : Tensor
  loss : Option Tensor

/-- Embeds `TensorflowAdversarialMultiTaskClassifier.construct_graph`
(lines 203-248).  `eps = 0.1`; in training mode the adversarial input is
`adv_x = tf.stop_gradient(x + eps * tf.sign(tf.gradients(loss_1, x)))`,
the model is reapplied to `adv_x`, and the loss is `(loss_1 + loss_2)/2`;
otherwise loss is `None` and `add_output_ops` wraps the output. -/
def advClassifierConstructGraph (cfg : LayerConfig) (training : Bool) :
    Except String (TFGraph Tensor) :=
  let eps : ℚ := 1/10
  let x := Tensor.placeholder "mol_features" [none, some cfg.nFeatures]
  match advClassifierModel cfg x training with
  | .error e => .error e
  | .ok output =>
      let labels := Tensor.labelPlaceholders cfg.nTasks
      let weights := Tensor.weightPlaceholders cfg.nTasks
      if training then
        let lossOne := Tensor.trainingCost output labels weights
        let grad := Tensor.gradient lossOne x
        let signedGrad := Tensor.sign grad
        let scaledSignedGrad := Tensor.scalarMul eps signedGrad
        let advX := Tensor.stopGradient (.addT x scaledSignedGrad)
        match advClassifierModel cfg advX training with
        | .error e => .error e
        | .ok advOutput =>
            let lossTwo := Tensor.trainingCost advOutput labels weights
            .ok { output := output, labels := labels, weights := weights,
                  loss := some (.scalarDiv (.addT lossOne lossTwo) 2) }
      else
        .ok { output := .outputOps output, labels := labels,
              weights := weights, loss := none }

/-- Embeds `TensorflowAdversarialMultiTaskRegressor.construct_graph`
(lines 351-396), identical in structure to the classifier version; the
model output is the list of per-task heads, passed to `add_training_cost`
as one value (`Tensor.tuple`). -/
def advRegressorConstructGraph (cfg : LayerConfig) (training : Bool) :
    Except String (TFGraph (List Tensor)) :=
  let eps : ℚ := 1/10
  let x := Tensor.placeholder "mol_features" [none, some cfg.nFeatures]
  match advRegressorModel cfg x training with
  | .error e => .error e
  | .ok output =>
      let labels := Tensor.labelPlaceholders cfg.nTasks
      let weights := Tensor.weightPlaceholders cfg.nTasks
      if training then
        let lossOne := Tensor.trainingCost (.tuple output) labels weights
        let grad := Tensor.gradient lossOne x
        let signedGrad := Tensor.sign grad
        let scaledSignedGrad := Tensor.scalarMul eps signedGrad
        let advX := Tensor.stopGradient (.addT x scaledSignedGrad)
        match advRegressorModel cfg advX training with
        | .error e => .error e
        | .ok advOutput =>
            let lossTwo := Tensor.trainingCost (.tuple advOutput) labels weights
            .ok { output := output, labels := labels, weights := weights,
                  loss := some (.scalarDiv (.addT lossOne lossTwo) 2) }
      else
        .ok { output := output.map .outputOps, labels := labels,
              weights := weights, loss := none }

/-- The `mol_features` placeholder `tf.placeholder(tf.float32, shape=[None,
n_features], name='mol_features')` created by `build` and by the adversarial
classes' `get_placeholders`. -/
def molFeaturesPlaceholder (cfg : LayerConfig) : Tensor :=
  .placeholder "mol_features" [none, some cfg.nFeatures]

/-- Model of the numpy values stored in feed dictionaries: 0-d, 1-d and 2-d
arrays of rationals. -/
inductive NpVal where
  | scalar (x : ℚ)
  | arr1 (xs : List ℚ)
  | arr2 (xss : List (List ℚ))
deriving DecidableEq

/-- Semantics of `np.squeeze` on (rectangular) arrays of rank at most 2:
every axis of size 1 is removed. -/
def npSqueeze : NpVal → NpVal
  | .scalar x => .scalar x
  | .arr1 xs =>
      match xs with
      | [x] => .scalar x
      | _ => .arr1 xs
  | .arr2 xss =>
      let n := (xss.headD []).length
      if xss.length = 1 then
        if n = 1 then .scalar ((xss.headD []).headD 0)
        else .arr1 (xss.headD [])
      else if n = 1 then .arr1 (xss.map (fun r => r.headD 0))
      else .arr2 xss

/-- Column extraction `a[:, t]` on a 2-d numpy array. -/
def col (xss : List (List ℚ)) (t : Nat) : List ℚ :=
  xss.map (fun row => row.getD t 0)

/-- Modelled from the spec: `deepchem.metrics.to_one_hot` is imported by
`fcnet.py` but its definition is not under `src/`; the claims use it
opaquely as the one-hot encoding of a label column, so it is modelled as the
standard binary one-hot of shape `(n, 2)`: row `[1, 0]` for label `0` and
`[0, 1]` otherwise. -/
def toOneHot (ys : List ℚ) : List (List ℚ) :=
  ys.map (fun y => if y = 0 then [1, 0] else [0, 1])

/-- Keys of the feed dictionary.  The Python dict is keyed by the strings
`Key.render` yields; that rendering being injective, the dictionary is
embedded with the structured keys. -/
inductive Key where
  | molFeatures
  | labels (task : Nat)
  | weights (task : Nat)
deriving DecidableEq

/-- The Python spelling of each feed-dictionary key: `"mol_features"`,
`"labels_%d" % task`, `"weights_%d" % task`. -/
def Key.render : Key → String
  | .molFeatures => "mol_features"
  | .labels t => "labels_" ++ Nat.repr t
  | .weights t => "weights_" ++ Nat.repr t

/-- Dictionary lookup.  The keys `construct_feed_dict` inserts are pairwise
distinct, so a Python dict and this association list agree. -/
def findVal (k : Key) : List (Key × NpVal) → Option NpVal
  | [] => none
  | (k2, v) :: rest => if k2 = k then some v else findVal k rest

/-- Embeds the loop `for task in range(self.n_tasks)` of
`construct_feed_dict`: starting at `task`, for `n` more iterations, insert
`labels_%d` then `weights_%d`. -/
def taskPairs (labelOf weightOf : Nat → NpVal) : Nat → Nat → List (Key × NpVal)
  | _, 0 => []
  | task, n + 1 =>
      (.labels task, labelOf task) :: (.weights task, weightOf task) ::
        taskPairs labelOf weightOf (task + 1) n

/-- The value `TensorflowMultiTaskClassifier.construct_feed_dict` stores
under `labels_%d`: `to_one_hot(y_b[:, task])`, or the dummy
`np.squeeze(to_one_hot(np.zeros((batch_size,))))` when `y_b is None`. -/
def classifierLabelOf (batchSize : Nat) (yb : Option (List (List ℚ)))
    (task : Nat) : NpVal :=
  match yb with
  | some y => .arr2 (toOneHot (col y task))
  | none => npSqueeze (.arr2 (toOneHot (List.replicate batchSize 0)))

/-- The value `TensorflowMultiTaskRegressor.construct_feed_dict` stores
under `labels_%d`: the raw column `y_b[:, task]`, or the dummy
`np.squeeze(np.zeros((batch_size,)))` when `y_b is None`. -/
def regressorLabelOf (batchSize : Nat) (yb : Option (List (List ℚ)))
    (task : Nat) : NpVal :=
  match yb with
  | some y => .arr1 (col y task)
  | none => npSqueeze (.arr1 (List.replicate batchSize 0))

/-- The value both `construct_feed_dict`s store under `weights_%d`:
`w_b[:, task]`, or the dummy `np.ones((batch_size,))` when `w_b is None`. -/
def weightOf (batchSize : Nat) (wb : Option (List (List ℚ)))
    (task : Nat) : NpVal :=
  match wb with
  | some w => .arr1 (col w task)
  | none => .arr1 (List.replicate batchSize 1)

/-- Embeds `TensorflowMultiTaskClassifier.construct_feed_dict` (lines
72-97).  `TensorflowGraph.get_feed_dict` only re-keys `orig_dict` by
placeholder name, so the dictionary is embedded as `orig_dict` itself. -/
def classifierFeedDict (nTasks batchSize : Nat) (Xb : NpVal)
    (yb wb : Option (List (List ℚ))) : List (Key × NpVal) :=
  (.molFeatures, Xb) ::
    taskPairs (classifierLabelOf batchSize yb) (weightOf batchSize wb) 0 nTasks

/-- Embeds `TensorflowMultiTaskRegressor.construct_feed_dict` (lines
162-186): identical to the classifier's except for the label values. -/
def regressorFeedDict (nTasks batchSize : Nat) (Xb : NpVal)
    (yb wb : Option (List (List ℚ))) : List (Key × NpVal) :=
  (.molFeatures, Xb) ::
    taskPairs (regressorLabelOf batchSize yb) (weightOf batchSize wb) 0 nTasks

/-- Unhandled Python exceptions the `fit` methods can raise. -/
inductive FitError where
  | nameError
  | zeroDivisionError
deriving DecidableEq

/-- Python `for transformer in self.fit_transformers: X = transformer.X_transform(X)`:
the transformers applied left to right in list order. -/
def applyTransformers {α : Type} (ts : List (α → α)) (x : α) : α :=
  ts.foldl (fun a t => t a) x

/-- Result of a `fit` call: the `global_step` arguments of the
`saver.save` calls in order, the `X_b` values handed to
`construct_feed_dict` in order, and the unhandled exception, if any. -/
structure FitResult (α : Type) where
  saves : List Nat
  feedInputs : List α
  err : Option FitError

/-- Embeds the epoch loop of `TensorflowAdversarialMultiTaskClassifier.fit`
(lines 323-337).  `batches e` is the list of `X_b` minibatch values
`dataset.iterbatches` yields in epoch `e`; each is passed to
`construct_feed_dict` unchanged.  Returns the `global_step` values saved
inside the loop, the feed inputs, and the error, if any: when an epoch
yields no batches, `avg_loss = float(avg_loss)/n_batches` divides by zero —
after `saver.save(sess, self._save_path, global_step=epoch)` has already
run. -/
def advFitEpochs {α : Type} (batches : Nat → List α) :
    Nat → Nat → List Nat × List α × Option FitError
  | 0, _ => ([], [], none)
  | fuel + 1, epoch =>
      let bs := batches epoch
      if bs.length = 0 then ([epoch], bs, some .zeroDivisionError)
      else
        let rest := advFitEpochs batches fuel (epoch + 1)
        (epoch :: rest.1, bs ++ rest.2.1, rest.2.2)

/-- Embeds `TensorflowAdversarialMultiTaskClassifier.fit` (lines 293-340):
an initial `saver.save(..., global_step=0)`, the epoch loop, then a final
`saver.save(..., global_step=epoch+1)` that reads the leftover loop
variable `epoch` — unbound (Python `NameError`) when `nb_epoch = 0`, and
equal to `nb_epoch - 1` otherwise. -/
def advClassifierFit {α : Type} (nbEpoch : Nat) (batches : Nat → List α) :
    FitResult α :=
  let run := advFitEpochs batches nbEpoch 0
  match run.2.2 with
  | some e => { saves := 0 :: run.1, feedInputs := run.2.1, err := some e }
  | none =>
      if nbEpoch = 0 then
        { saves := [0], feedInputs := [], err := some .nameError }
      else
        { saves := 0 :: run.1 ++ [nbEpoch], feedInputs := run.2.1, err := none }

/-- Embeds the epoch loop of `TensorflowMultiTaskFitTransformRegressor.fit`
(lines 606-630): as `advFitEpochs`, except that each minibatch `X_b` is
first passed through every fit transformer in list order and only the
transformed value reaches `construct_feed_dict` (the loop also fetches the
training outputs and flattens `y_b`, which affects nothing recorded here). -/
def ftFitEpochs {α : Type} (ts : List (α → α)) (batches : Nat → List α) :
    Nat → Nat → List Nat × List α × Option FitError
  | 0, _ => ([], [], none)
  | fuel + 1, epoch =>
      let bs := (batches epoch).map (applyTransformers ts)
      if bs.length = 0 then ([epoch], bs, some .zeroDivisionError)
      else
        let rest := ftFitEpochs ts batches fuel (epoch + 1)
        (epoch :: rest.1, bs ++ rest.2.1, rest.2.2)

/-- Embeds `TensorflowMultiTaskFitTransformRegressor.fit` (lines 569-636):
the same initial, per-epoch and final checkpoint saves as the adversarial
classifier's `fit`, around the transforming epoch loop. -/
def fitTransformFit {α : Type} (ts : List (α → α)) (nbEpoch : Nat)
    (batches : Nat → List α) : FitResult α :=
  let run := ftFitEpochs ts batches nbEpoch 0
  match run.2.2 with
  | some e => { saves := 0 :: run.1, feedInputs := run.2.1, err := some e }
  | none =>
      if nbEpoch = 0 then
        { saves := [0], feedInputs := [], err := some .nameError }
      else
        { saves := 0 :: run.1 ++ [nbEpoch], feedInputs := run.2.1, err := none }

/-- Embeds the `X_evals` loop of `predict_on_batch` (lines 659-664): `for i
in range(self.n_evals)`, each iteration independently transforms the
untouched argument `X` through every fit transformer and appends the
result. -/
def buildXEvals {β : Type} (ts : List (List β → List β)) :
    Nat → List β → List (List β)
  | 0, _ => []
  | n + 1, X => applyTransformers ts X :: buildXEvals ts n X

/-- Semantics of `np.mean(np.array(outputs), axis=0)` on a nonempty list of
equal-length vectors: the pointwise sum divided by the number of vectors. -/
def elementwiseMean (xs : List (List ℚ)) : List ℚ :=
  match xs with
  | [] => []
  | v :: rest =>
      (rest.foldl (fun acc u => List.zipWith (fun a b => a + b) acc u) v).map
        (fun a => a / (xs.length : ℚ))

/-- Embeds `TensorflowMultiTaskFitTransformRegressor.predict_on_batch`
(lines 638-712).  `M` abstracts one evaluation-graph session run together
with the reshaping of `data[:n_tasks]` into the per-example output vector
for one transformed input.  `pad_batches` is `False` for this class (set in
`__init__`), so the padding branch never runs.  `len_unpadded = len(X_t)`
reads the leftover loop variable `X_t`, unbound when `n_evals = 0` (Python
`NameError`, embedded as `none`); the final line prunes the mean to
`len_unpadded` rows. -/
def predictOnBatch {β : Type} (ts : List (List β → List β)) (nEvals : Nat)
    (M : List β → List ℚ) (X : List β) : Option (List ℚ) :=
  let XEvals := buildXEvals ts nEvals X
  match XEvals.getLast? with
  | none => none
  | some Xt =>
      let lenUnpadded := Xt.length
      let outputs := XEvals.map M
      some ((elementwiseMean outputs).take lenUnpadded)

/-- Global names read or bound at module level by
`examples/gdb7/gdb7_tf_model.py`. -/
inductive PyName where
  | osMod | dcMod | npMod | load_gdb7 | load_gdb7_from_mat
  | split | num_atoms | featurizer | gdb7_tasks | dataset | transformers
  | datasets | train_dataset | test_dataset | n_features
  | regression_metric | model | train_scores | test_scores
deriving DecidableEq

/-- One module-level statement: the global names its expressions read, in
evaluation order, and the names its assignment targets bind. -/
structure Stmt where
  reads : List PyName
  writes : List PyName

/-- The executable module-level statements of `gdb7_tf_model.py` (lines
8-42) in order; the commented-out lines 17 and 23 do not execute.
Attribute accesses such as `dc.feat.ConvMolFeaturizer` read only the global
`dc`; builtins like `print` are always bound and are not tracked. -/
def gdb7Script : List Stmt := [
  { reads := [], writes := [.osMod] },
  { reads := [], writes := [.dcMod] },
  { reads := [], writes := [.npMod] },
  { reads := [], writes := [.load_gdb7, .load_gdb7_from_mat] },
  { reads := [.npMod], writes := [] },
  { reads := [], writes := [.split] },
  { reads := [], writes := [.num_atoms] },
  { reads := [.dcMod], writes := [.featurizer] },
  { reads := [.load_gdb7, .featurizer],
    writes := [.gdb7_tasks, .dataset, .transformers] },
  { reads := [.datasets], writes := [.train_dataset, .test_dataset] },
  { reads := [.train_dataset], writes := [.n_features] },
  { reads := [.dcMod], writes := [.regression_metric] },
  { reads := [.dcMod, .n_features, .npMod], writes := [.model] },
  { reads := [.model, .train_dataset], writes := [] },
  { reads := [.model], writes := [] },
  { reads := [.model, .train_dataset, .regression_metric, .transformers],
    writes := [.train_scores] },
  { reads := [.train_scores], writes := [] },
  { reads := [.model, .test_dataset, .regression_metric, .transformers],
    writes := [.test_scores] },
  { reads := [.test_scores], writes := [] }]

/-- Runs the module top to bottom: each statement first reads its globals —
the first name not yet bound raises `NameError`, embedded as `.error`
naming it — and then binds its targets. -/
def runScript : List Stmt → List PyName → Except PyName (List PyName)
  | [], env => .ok env
  | s :: rest, env =>
      match s.reads.find? (fun n => ! env.contains n) with
      | some n => .error n
      | none => runScript rest (env ++ s.writes)

/-- Claim C2's description of one hidden layer, following the spec's words:
`dropout(relu(fully_connected(prev, size=sz)))` with weight init of shape
`[prevSize, sz]` and stddev `sd`, bias constant `bc` and dropout rate `dp`. -/
def specLayer (training : Bool) (prev : Tensor) (prevSize sz : Nat)
    (sd bc dp : ℚ) : Tensor :=
  .dropout (.relu (.fullyConnected prev sz [prevSize, sz] sd bc [sz])) dp training

/-- Claim C2's description of the hidden stack: fold `specLayer` over the
per-layer parameter tuples `(size, stddev, biasConst, dropout)` in order,
threading the previous layer and its size. -/
def specStack (training : Bool) : Tensor → Nat → List (Nat × ℚ × ℚ × ℚ) → Tensor
  | prev, _, [] => prev
  | prev, prevSize, (sz, sd, bc, dp) :: rest =>
      specStack training (specLayer training prev prevSize sz sd bc dp) sz rest

/-- The per-layer parameter tuples of a configuration, in layer order. -/
def layerParams (cfg : LayerConfig) : List (Nat × ℚ × ℚ × ℚ) :=
  cfg.layerSizes.zip (cfg.weightInitStddevs.zip (cfg.biasInitConsts.zip cfg.dropouts))

/-- A small valid configuration used to instantiate the theorems below. -/
def exampleConfig : LayerConfig :=
  { nFeatures := 2, nTasks := 1, layerSizes := [3],
    weightInitStddevs := [1/2], biasInitConsts := [0], dropouts := [1/2] }

/-- Claim C1's property of the adversarial classifier's `construct_graph`
in training mode: letting `x` be the clean `mol_features` placeholder and
`output` the model applied to `x`, `loss_1` is the training cost on
`output`, the adversarial input is `adv_x = stop_gradient(x + 0.1 *
sign(d loss_1 / d x))`, the same `model` is applied to `adv_x` giving
`advOutput` and `loss_2`, and the graph's loss is `(loss_1 + loss_2)/2`. -/
def advClassifierGraphSpec (cfg : LayerConfig) : Prop :=
  ∃ output advOutput,
    advClassifierModel cfg (molFeaturesPlaceholder cfg) true = .ok output ∧
    advClassifierModel cfg
      (.stopGradient (.addT (molFeaturesPlaceholder cfg)
        (.scalarMul (1/10) (.sign (.gradient
          (.trainingCost output (.labelPlaceholders cfg.nTasks)
            (.weightPlaceholders cfg.nTasks))
          (molFeaturesPlaceholder cfg)))))) true = .ok advOutput ∧
    advClassifierConstructGraph cfg true = .ok
      { output := output,
        labels := .labelPlaceholders cfg.nTasks,
        weights := .weightPlaceholders cfg.nTasks,
        loss := some (.scalarDiv (.addT
          (.trainingCost output (.labelPlaceholders cfg.nTasks)
            (.weightPlaceholders cfg.nTasks))
          (.trainingCost advOutput (.labelPlaceholders cfg.nTasks)
            (.weightPlaceholders cfg.nTasks))) 2) }

/-- Claim C1's property of the adversarial regressor's `construct_graph` in
training mode, in the same shape as `advClassifierGraphSpec`; the model
output is the list of per-task heads, handed to `add_training_cost` as one
value. -/
def advRegressorGraphSpec (cfg : LayerConfig) : Prop :=
  ∃ output advOutput,
    advRegressorModel cfg (molFeaturesPlaceholder cfg) true = .ok output ∧
    advRegressorModel cfg
      (.stopGradient (.addT (molFeaturesPlaceholder cfg)
        (.scalarMul (1/10) (.sign (.gradient
          (.trainingCost (.tuple output) (.labelPlaceholders cfg.nTasks)
            (.weightPlaceholders cfg.nTasks))
          (molFeaturesPlaceholder cfg)))))) true = .ok advOutput ∧
    advRegressorConstructGraph cfg true = .ok
      { output := output,
        labels := .labelPlaceholders cfg.nTasks,
        weights := .weightPlaceholders cfg.nTasks,
        loss := some (.scalarDiv (.addT
          (.trainingCost (.tuple output) (.labelPlaceholders cfg.nTasks)
            (.weightPlaceholders cfg.nTasks))
          (.trainingCost (.tuple advOutput) (.labelPlaceholders cfg.nTasks)
            (.weightPlaceholders cfg.nTasks))) 2) }

theorem dedup_all_eq (a : ℕ) : [a, a, a, a].dedup = [a] := by
  have h1 : [a].dedup = [a] := by
    rw [List.dedup_cons_of_not_mem (by simp)]
    simp
  have h2 : [a, a].dedup = [a] := by
    rw [List.dedup_cons_of_mem (by simp : a ∈ [a])]
    exact h1
  have h3 : [a, a, a].dedup = [a] := by
    rw [List.dedup_cons_of_mem (by simp : a ∈ [a, a])]
    exact h2
  rw [List.dedup_cons_of_mem (by simp : a ∈ [a, a, a])]
  exact h3

/-- A four-element list deduplicates to a singleton exactly when all four
elements are equal. -/
theorem dedup_four_singleton (a b c d : ℕ) :
    [a, b, c, d].dedup.length = 1 ↔ b = a ∧ c = a ∧ d = a := by
  constructor
  · intro h
    obtain ⟨x, hx⟩ := List.length_eq_one.mp h
    have key : ∀ y : ℕ, y ∈ [a, b, c, d] → y = x := by
      intro y hy
      have hyd : y ∈ [a, b, c, d].dedup := List.mem_dedup.mpr hy
      rw [hx] at hyd
      simpa using hyd
    have ha := key a (by simp)
    have hb := key b (by simp)
    have hc := key c (by simp)
    have hd := key d (by simp)
    exact ⟨hb.trans ha.symm, hc.trans ha.symm, hd.trans ha.symm⟩
  · rintro ⟨rfl, rfl, rfl⟩
    rw [dedup_all_eq]
    rfl

/-- The assertion check of the graph builders succeeds exactly on valid
configurations, and then yields `n_layers = len(layer_sizes)`. -/
theorem checkLayerParams_eq_ok_iff (cfg : LayerConfig) (n : Nat) :
    checkLayerParams cfg = .ok n ↔ layerParamsOk cfg ∧ n = cfg.layerSizes.length := by
  unfold checkLayerParams layerParamsOk
  have hd := dedup_four_singleton cfg.layerSizes.length cfg.weightInitStddevs.length
    cfg.biasInitConsts.length cfg.dropouts.length
  constructor
  · intro h
    simp only [] at h
    split_ifs at h with h1 h2
    · obtain ⟨e1, e2, e3⟩ := hd.mp h1
      rw [e1, e2, e3, dedup_all_eq] at h h2
      simp only [List.headD_cons] at h h2
      exact ⟨⟨e1, e2, e3, h2⟩, (Except.ok.injEq _ _).mp h.symm⟩
  · rintro ⟨⟨e1, e2, e3, hpos⟩, rfl⟩
    rw [e1, e2, e3, dedup_all_eq]
    simp [hpos]

/-- Validity makes every assertion pass. -/
theorem checkLayerParams_of_ok (cfg : LayerConfig) (h : layerParamsOk cfg) :
    checkLayerParams cfg = .ok cfg.layerSizes.length :=
  (checkLayerParams_eq_ok_iff cfg _).mpr ⟨h, rfl⟩

theorem checkLayerParams_isOk_iff (cfg : LayerConfig) :
    (checkLayerParams cfg).isOk = true ↔ layerParamsOk cfg := by
  constructor
  · intro h
    rcases he : checkLayerParams cfg with e | v
    · rw [he] at h; exact Bool.noConfusion h
    · exact ((checkLayerParams_eq_ok_iff cfg v).mp he).1
  · intro h
    rw [checkLayerParams_of_ok cfg h]
    rfl

theorem map_range_const {α : Type} (n : Nat) (v : α) :
    (List.range n).map (fun _ => v) = List.replicate n v := by
  rw [show (fun _ : ℕ => v) = Function.const ℕ v from rfl, List.map_const,
    List.length_range]

theorem layerParams_length (cfg : LayerConfig)
    (h1 : cfg.weightInitStddevs.length = cfg.layerSizes.length)
    (h2 : cfg.biasInitConsts.length = cfg.layerSizes.length)
    (h3 : cfg.dropouts.length = cfg.layerSizes.length) :
    (layerParams cfg).length = cfg.layerSizes.length := by
  simp [layerParams, List.length_zip, h1, h2, h3]

/-- The hidden-layer loop computes exactly the fold of per-layer
constructions the spec describes, from any starting index. -/
theorem hiddenLayersAux_prevLayer (cfg : LayerConfig) (training : Bool)
    (h1 : cfg.weightInitStddevs.length = cfg.layerSizes.length)
    (h2 : cfg.biasInitConsts.length = cfg.layerSizes.length)
    (h3 : cfg.dropouts.length = cfg.layerSizes.length) :
    ∀ (fuel i : Nat) (prev : Tensor) (prevSize : Nat),
      i + fuel ≤ cfg.layerSizes.length →
      (hiddenLayersAux cfg training fuel i prev prevSize).prevLayer =
        specStack training prev prevSize (((layerParams cfg).drop i).take fuel) := by
  intro fuel
  induction fuel with
  | zero =>
      intro i prev prevSize _
      simp [hiddenLayersAux, specStack]
  | succ f ih =>
      intro i prev prevSize hle
      have hiL : i < cfg.layerSizes.length := by omega
      have hiW : i < cfg.weightInitStddevs.length := by omega
      have hiB : i < cfg.biasInitConsts.length := by omega
      have hiD : i < cfg.dropouts.length := by omega
      have hiP : i < (layerParams cfg).length := by
        rw [layerParams_length cfg h1 h2 h3]; omega
      rw [List.drop_eq_getElem_cons hiP, List.take_succ_cons]
      have hget : (layerParams cfg)[i] =
          (cfg.layerSizes[i], cfg.weightInitStddevs[i],
           cfg.biasInitConsts[i], cfg.dropouts[i]) := by
        simp [layerParams, List.getElem_zip]
      rw [hget]
      simp only [hiddenLayersAux, specStack, hiddenLayerStep, specLayer,
        List.getD_eq_getElem cfg.layerSizes 0 hiL,
        List.getD_eq_getElem cfg.weightInitStddevs 0 hiW,
        List.getD_eq_getElem cfg.biasInitConsts 0 hiB,
        List.getD_eq_getElem cfg.dropouts 0 hiD]
      exact ih (i + 1) _ _ (by omega)

/-- The leftover loop variable after `for i in range(fuel)` starting at `i`. -/
theorem hiddenLayersAux_lastI (cfg : LayerConfig) (training : Bool) :
    ∀ (fuel i : Nat) (prev : Tensor) (prevSize : Nat),
      (hiddenLayersAux cfg training fuel i prev prevSize).lastI = i + fuel - 1 := by
  intro fuel
  induction fuel with
  | zero =>
      intro i prev prevSize
      simp [hiddenLayersAux]
  | succ f ih =>
      intro i prev prevSize
      simp only [hiddenLayersAux]
      rw [ih]
      omega

/-- `prev_layer_size` after the loop: the size of the last built layer. -/
theorem hiddenLayersAux_prevLayerSize (cfg : LayerConfig) (training : Bool) :
    ∀ (fuel i : Nat) (prev : Tensor) (prevSize : Nat),
      (hiddenLayersAux cfg training fuel i prev prevSize).prevLayerSize =
        if fuel = 0 then prevSize else cfg.layerSizes.getD (i + fuel - 1) 0 := by
  intro fuel
  induction fuel with
  | zero =>
      intro i prev prevSize
      simp [hiddenLayersAux]
  | succ f ih =>
      intro i prev prevSize
      simp only [hiddenLayersAux]
      rw [ih]
      rcases Nat.eq_zero_or_pos f with hf | hf
      · subst hf; simp
      · rw [if_neg (by omega), if_neg (by omega)]
        congr 1
        omega

theorem hiddenLayers_prevLayer_eq (cfg : LayerConfig) (training : Bool)
    (x : Tensor) (h : layerParamsOk cfg) :
    (hiddenLayers cfg training x cfg.layerSizes.length).prevLayer =
      specStack training x cfg.nFeatures (layerParams cfg) := by
  obtain ⟨h1, h2, h3, _⟩ := h
  have hmain := hiddenLayersAux_prevLayer cfg training h1 h2 h3
    cfg.layerSizes.length 0 x cfg.nFeatures (by omega)
  rw [List.drop_zero,
    List.take_of_length_le (le_of_eq (layerParams_length cfg h1 h2 h3))] at hmain
  exact hmain

/-- Under a valid configuration, the adversarial classifier's `model`
returns the spec's hidden stack capped by `multitask_logits`, for any input
tensor. -/
theorem advClassifierModel_eq (cfg : LayerConfig) (h : layerParamsOk cfg)
    (x : Tensor) (training : Bool) :
    advClassifierModel cfg x training = .ok (.multitaskLogits
      (specStack training x cfg.nFeatures (layerParams cfg)) cfg.nTasks) := by
  unfold advClassifierModel
  rw [checkLayerParams_of_ok cfg h]
  exact congrArg (fun t => Except.ok (Tensor.multitaskLogits t cfg.nTasks))
    (hiddenLayers_prevLayer_eq cfg training x h)

/-- Under a valid configuration, the adversarial regressor's `model` returns
`n_tasks` identical heads, all built from the index `n_layers - 1`. -/
theorem advRegressorModel_eq (cfg : LayerConfig) (h : layerParamsOk cfg)
    (x : Tensor) (training : Bool) :
    advRegressorModel cfg x training = .ok (List.replicate cfg.nTasks
      (.squeeze (.fullyConnected
        (specStack training x cfg.nFeatures (layerParams cfg))
        (cfg.layerSizes.getD (cfg.layerSizes.length - 1) 0)
        [cfg.layerSizes.getD (cfg.layerSizes.length - 1) 0, 1]
        (cfg.weightInitStddevs.getD (cfg.layerSizes.length - 1) 0)
        (cfg.biasInitConsts.getD (cfg.layerSizes.length - 1) 0) [1]))) := by
  have hpos : 0 < cfg.layerSizes.length := h.2.2.2
  unfold advRegressorModel
  rw [checkLayerParams_of_ok cfg h]
  show Except.ok (regressorHeads cfg (hiddenLayers cfg training x cfg.layerSizes.length)) = _
  unfold regressorHeads regressorHead hiddenLayers
  rw [hiddenLayersAux_lastI cfg training, hiddenLayersAux_prevLayerSize cfg training,
    if_neg (by omega)]
  have hp := hiddenLayers_prevLayer_eq cfg training x h
  unfold hiddenLayers at hp
  rw [hp]
  simp only [Nat.zero_add]
  rw [map_range_const]

theorem regressorBuild_eq (cfg : LayerConfig) (h : layerParamsOk cfg)
    (training : Bool) :
    regressorBuild cfg training = .ok (List.replicate cfg.nTasks
      (.squeeze (.fullyConnected
        (specStack training (.placeholder "mol_features" [none, some cfg.nFeatures])
          cfg.nFeatures (layerParams cfg))
        (cfg.layerSizes.getD (cfg.layerSizes.length - 1) 0)
        [cfg.layerSizes.getD (cfg.layerSizes.length - 1) 0, 1]
        (cfg.weightInitStddevs.getD (cfg.layerSizes.length - 1) 0)
        (cfg.biasInitConsts.getD (cfg.layerSizes.length - 1) 0) [1]))) := by
  have hadv := advRegressorModel_eq cfg h
    (.placeholder "mol_features" [none, some cfg.nFeatures]) training
  unfold advRegressorModel at hadv
  unfold regressorBuild
  rcases he : checkLayerParams cfg with e | v
  · rw [checkLayerParams_of_ok cfg h] at he
    exact absurd he (by simp)
  · rw [he] at hadv
    exact hadv

/-- C1: for both `TensorflowAdversarialMultiTaskClassifier.construct_graph`
and `TensorflowAdversarialMultiTaskRegressor.construct_graph` called with
`training=True`, the adversarial input is `adv_x = stop_gradient(x + 0.1 *
sign(d loss_1 / d x))` where `loss_1` is the training cost of the model on
the clean placeholder `x`, the same model function is applied to `adv_x` to
obtain `loss_2`, and the graph's total loss equals `(loss_1 + loss_2)/2`. -/
theorem adversarial_graph_loss_composition (cfg : LayerConfig)
    (h : layerParamsOk cfg) :
    advClassifierGraphSpec cfg ∧ advRegressorGraphSpec cfg := by
  constructor
  · refine ⟨_, _, advClassifierModel_eq cfg h _ true,
      advClassifierModel_eq cfg h _ true, ?_⟩
    simp only [advClassifierConstructGraph, advClassifierModel_eq cfg h,
      molFeaturesPlaceholder, if_true]
  · refine ⟨_, _, advRegressorModel_eq cfg h _ true,
      advRegressorModel_eq cfg h _ true, ?_⟩
    simp only [advRegressorConstructGraph, advRegressorModel_eq cfg h,
      molFeaturesPlaceholder, if_true]

/-- Witness for C1 at a concrete valid configuration. -/
theorem adversarial_graph_loss_composition_witness :
    layerParamsOk exampleConfig ∧
    (advClassifierGraphSpec exampleConfig ∧ advRegressorGraphSpec exampleConfig) :=
  ⟨by decide, adversarial_graph_loss_composition exampleConfig (by decide)⟩

/-- C2: for every valid configuration, `TensorflowMultiTaskClassifier.build`
constructs a `mol_features` placeholder of shape `[None, n_features]` and a
stack of `n_layers` hidden layers, layer `i` being
`dropout(relu(fully_connected(prev, size=layer_sizes[i])))` with weight
init of shape `[prev_layer_size, layer_sizes[i]]`, stddev
`weight_init_stddevs[i]` and bias constant `bias_init_consts[i]`, and
returns `multitask_logits` of the last layer with `n_tasks` output heads. -/
theorem classifier_build_spec_stack (cfg : LayerConfig) (h : layerParamsOk cfg)
    (training : Bool) :
    classifierBuild cfg training = .ok (.multitaskLogits
      (specStack training (.placeholder "mol_features" [none, some cfg.nFeatures])
        cfg.nFeatures (layerParams cfg)) cfg.nTasks) := by
  unfold classifierBuild
  rw [checkLayerParams_of_ok cfg h]
  exact congrArg (fun t => Except.ok (Tensor.multitaskLogits t cfg.nTasks))
    (hiddenLayers_prevLayer_eq cfg training _ h)

/-- Witness for C2 at a concrete valid configuration. -/
theorem classifier_build_spec_stack_witness :
    layerParamsOk exampleConfig ∧
    classifierBuild exampleConfig true = .ok (.multitaskLogits
      (specStack true (.placeholder "mol_features" [none, some exampleConfig.nFeatures])
        exampleConfig.nFeatures (layerParams exampleConfig)) exampleConfig.nTasks) :=
  ⟨by decide, classifier_build_spec_stack exampleConfig (by decide) true⟩

theorem isOk_classifierBuild (cfg : LayerConfig) (training : Bool) :
    (classifierBuild cfg training).isOk = (checkLayerParams cfg).isOk := by
  unfold classifierBuild
  rcases he : checkLayerParams cfg with e | v <;> rfl

theorem isOk_regressorBuild (cfg : LayerConfig) (training : Bool) :
    (regressorBuild cfg training).isOk = (checkLayerParams cfg).isOk := by
  unfold regressorBuild
  rcases he : checkLayerParams cfg with e | v <;> rfl

theorem isOk_advClassifierModel (cfg : LayerConfig) (x : Tensor) (training : Bool) :
    (advClassifierModel cfg x training).isOk = (checkLayerParams cfg).isOk := by
  unfold advClassifierModel
  rcases he : checkLayerParams cfg with e | v <;> rfl

theorem isOk_advRegressorModel (cfg : LayerConfig) (x : Tensor) (training : Bool) :
    (advRegressorModel cfg x training).isOk = (checkLayerParams cfg).isOk := by
  unfold advRegressorModel
  rcases he : checkLayerParams cfg with e | v <;> rfl

/-- C5: every graph-building method succeeds exactly when the four layer
parameter lists have equal positive length, and then `n_layers` is that
common length. -/
theorem graph_builders_assert (cfg : LayerConfig) (training : Bool) (x : Tensor) :
    ((classifierBuild cfg training).isOk = true ↔ layerParamsOk cfg) ∧
    ((regressorBuild cfg training).isOk = true ↔ layerParamsOk cfg) ∧
    ((advClassifierModel cfg x training).isOk = true ↔ layerParamsOk cfg) ∧
    ((advRegressorModel cfg x training).isOk = true ↔ layerParamsOk cfg) ∧
    (∀ n, checkLayerParams cfg = .ok n → n = cfg.layerSizes.length) := by
  refine ⟨?_, ?_, ?_, ?_, ?_⟩
  · rw [isOk_classifierBuild]; exact checkLayerParams_isOk_iff cfg
  · rw [isOk_regressorBuild]; exact checkLayerParams_isOk_iff cfg
  · rw [isOk_advClassifierModel]; exact checkLayerParams_isOk_iff cfg
  · rw [isOk_advRegressorModel]; exact checkLayerParams_isOk_iff cfg
  · intro n hn
    exact ((checkLayerParams_eq_ok_iff cfg n).mp hn).2

/-- Witness for C5 at a concrete configuration and input tensor. -/
theorem graph_builders_assert_witness :
    ((classifierBuild exampleConfig true).isOk = true ↔ layerParamsOk exampleConfig) ∧
    ((regressorBuild exampleConfig true).isOk = true ↔ layerParamsOk exampleConfig) ∧
    ((advClassifierModel exampleConfig (.tuple []) true).isOk = true ↔
      layerParamsOk exampleConfig) ∧
    ((advRegressorModel exampleConfig (.tuple []) true).isOk = true ↔
      layerParamsOk exampleConfig) ∧
    (∀ n, checkLayerParams exampleConfig = .ok n →
      n = exampleConfig.layerSizes.length) :=
  graph_builders_assert exampleConfig true (.tuple [])

/-- C7: in `TensorflowMultiTaskRegressor.build` and
`TensorflowAdversarialMultiTaskRegressor.model`, every one of the `n_tasks`
output heads is built with the loop variable `i` left at `n_layers - 1`:
each head gets `size=layer_sizes[n_layers-1]` while its weight init has
shape `[layer_sizes[n_layers-1], 1]` with stddev
`weight_init_stddevs[n_layers-1]` and its bias init has shape `[1]` with
constant `bias_init_consts[n_layers-1]`; all heads are identical, and the
size argument disagrees with the 1-column weight shape whenever
`layer_sizes[n_layers-1] ≠ 1`. -/
theorem regressor_heads_last_index (cfg : LayerConfig) (h : layerParamsOk cfg)
    (training : Bool) (x : Tensor) :
    regressorBuild cfg training = .ok (List.replicate cfg.nTasks
      (.squeeze (.fullyConnected
        (specStack training (.placeholder "mol_features" [none, some cfg.nFeatures])
          cfg.nFeatures (layerParams cfg))
        (cfg.layerSizes.getD (cfg.layerSizes.length - 1) 0)
        [cfg.layerSizes.getD (cfg.layerSizes.length - 1) 0, 1]
        (cfg.weightInitStddevs.getD (cfg.layerSizes.length - 1) 0)
        (cfg.biasInitConsts.getD (cfg.layerSizes.length - 1) 0) [1]))) ∧
    advRegressorModel cfg x training = .ok (List.replicate cfg.nTasks
      (.squeeze (.fullyConnected
        (specStack training x cfg.nFeatures (layerParams cfg))
        (cfg.layerSizes.getD (cfg.layerSizes.length - 1) 0)
        [cfg.layerSizes.getD (cfg.layerSizes.length - 1) 0, 1]
        (cfg.weightInitStddevs.getD (cfg.layerSizes.length - 1) 0)
        (cfg.biasInitConsts.getD (cfg.layerSizes.length - 1) 0) [1]))) ∧
    (cfg.layerSizes.getD (cfg.layerSizes.length - 1) 0 ≠ 1 →
      cfg.layerSizes.getD (cfg.layerSizes.length - 1) 0 ≠
        [cfg.layerSizes.getD (cfg.layerSizes.length - 1) 0, 1].getD 1 0) := by
  refine ⟨regressorBuild_eq cfg h training, advRegressorModel_eq cfg h x training, ?_⟩
  intro hne
  simpa using hne

/-- Witness for C7 at a concrete valid configuration. -/
theorem regressor_heads_last_index_witness :
    layerParamsOk exampleConfig ∧
    (regressorBuild exampleConfig true = .ok (List.replicate exampleConfig.nTasks
      (.squeeze (.fullyConnected
        (specStack true (.placeholder "mol_features" [none, some exampleConfig.nFeatures])
          exampleConfig.nFeatures (layerParams exampleConfig))
        (exampleConfig.layerSizes.getD (exampleConfig.layerSizes.length - 1) 0)
        [exampleConfig.layerSizes.getD (exampleConfig.layerSizes.length - 1) 0, 1]
        (exampleConfig.weightInitStddevs.getD (exampleConfig.layerSizes.length - 1) 0)
        (exampleConfig.biasInitConsts.getD (exampleConfig.layerSizes.length - 1) 0) [1]))) ∧
    advRegressorModel exampleConfig (.tuple []) true = .ok (List.replicate exampleConfig.nTasks
      (.squeeze (.fullyConnected
        (specStack true (.tuple []) exampleConfig.nFeatures (layerParams exampleConfig))
        (exampleConfig.layerSizes.getD (exampleConfig.layerSizes.length - 1) 0)
        [exampleConfig.layerSizes.getD (exampleConfig.layerSizes.length - 1) 0, 1]
        (exampleConfig.weightInitStddevs.getD (exampleConfig.layerSizes.length - 1) 0)
        (exampleConfig.biasInitConsts.getD (exampleConfig.layerSizes.length - 1) 0) [1]))) ∧
    (exampleConfig.layerSizes.getD (exampleConfig.layerSizes.length - 1) 0 ≠ 1 →
      exampleConfig.layerSizes.getD (exampleConfig.layerSizes.length - 1) 0 ≠
        [exampleConfig.layerSizes.getD (exampleConfig.layerSizes.length - 1) 0, 1].getD 1 0)) :=
  ⟨by decide, regressor_heads_last_index exampleConfig (by decide) true (.tuple [])⟩

theorem range_map_add (e f : Nat) :
    (List.range (f + 1)).map (fun j => e + j) =
      e :: (List.range f).map (fun j => (e + 1) + j) := by
  rw [List.range_succ_eq_map, List.map_cons, List.map_map]
  simp only [Nat.add_zero]
  congr 1
  all_goals refine List.map_congr_left fun j _ => ?_
  all_goals simp only [Function.comp_apply]
  all_goals omega

theorem range_flatMap_add {α : Type} (g : Nat → List α) (e f : Nat) :
    (List.range (f + 1)).flatMap (fun j => g (e + j)) =
      g e ++ (List.range f).flatMap (fun j => g ((e + 1) + j)) := by
  rw [List.range_succ_eq_map, List.flatMap_cons, List.flatMap_map]
  simp only [Nat.add_zero]
  have hfun : (fun a : ℕ => g (e + a.succ)) = fun j => g ((e + 1) + j) := by
    funext j
    exact congrArg g (by omega)
  rw [hfun]

/-- A run of the adversarial classifier's epoch loop in which every epoch
yields at least one minibatch saves at `global_step = epoch` for each epoch
and raises nothing. -/
theorem advFitEpochs_normal {α : Type} (batches : Nat → List α) :
    ∀ (fuel e : Nat), (∀ j, j < fuel → (batches (e + j)).length ≠ 0) →
      (advFitEpochs batches fuel e).1 = (List.range fuel).map (fun j => e + j) ∧
      (advFitEpochs batches fuel e).2.2 = none := by
  intro fuel
  induction fuel with
  | zero => intro e _; simp [advFitEpochs]
  | succ f ih =>
      intro e hnz
      have hb : ¬ (batches e).length = 0 := by
        have h := hnz 0 (by omega)
        rwa [Nat.add_zero] at h
      have hrest := ih (e + 1) (fun j hj => by
        have h := hnz (j + 1) (by omega)
        rwa [show e + (j + 1) = (e + 1) + j from by omega] at h)
      simp only [advFitEpochs, if_neg hb]
      rw [range_map_add]
      exact ⟨by rw [hrest.1], hrest.2⟩

/-- Same for the fit-transform regressor's epoch loop, additionally
characterising the inputs handed to `construct_feed_dict`: every minibatch,
transformed. -/
theorem ftFitEpochs_normal {α : Type} (ts : List (α → α)) (batches : Nat → List α) :
    ∀ (fuel e : Nat), (∀ j, j < fuel → (batches (e + j)).length ≠ 0) →
      (ftFitEpochs ts batches fuel e).1 = (List.range fuel).map (fun j => e + j) ∧
      (ftFitEpochs ts batches fuel e).2.1 =
        (List.range fuel).flatMap
          (fun j => (batches (e + j)).map (applyTransformers ts)) ∧
      (ftFitEpochs ts batches fuel e).2.2 = none := by
  intro fuel
  induction fuel with
  | zero => intro e _; simp [ftFitEpochs]
  | succ f ih =>
      intro e hnz
      have hb : ¬ ((batches e).map (applyTransformers ts)).length = 0 := by
        have h := hnz 0 (by omega)
        rw [Nat.add_zero] at h
        simpa using h
      have hrest := ih (e + 1) (fun j hj => by
        have h := hnz (j + 1) (by omega)
        rwa [show e + (j + 1) = (e + 1) + j from by omega] at h)
      simp only [ftFitEpochs, if_neg hb]
      refine ⟨?_, ?_, hrest.2.2⟩
      · rw [range_map_add]
        rw [hrest.1]
      · rw [range_flatMap_add (fun j => (batches j).map (applyTransformers ts))]
        rw [hrest.2.1]

/-- C4: for every `fit` call with `nb_epoch >= 1` on a dataset yielding at
least one minibatch per epoch (both the adversarial classifier's and the
fit-transform regressor's `fit`), the checkpoint saves are exactly: one at
`global_step 0` before training, one at `global_step e` after each epoch
`e` in `[0, nb_epoch)`, and a final one at `global_step nb_epoch`; in
particular the save after the first epoch reuses `global_step 0`. -/
theorem fit_checkpoint_schedule {α : Type} (ts : List (α → α)) (nbEpoch : Nat)
    (batches : Nat → List α) (h1 : 1 ≤ nbEpoch)
    (h2 : ∀ e, e < nbEpoch → (batches e).length ≠ 0) :
    (advClassifierFit nbEpoch batches).saves = 0 :: (List.range nbEpoch ++ [nbEpoch]) ∧
    (fitTransformFit ts nbEpoch batches).saves = 0 :: (List.range nbEpoch ++ [nbEpoch]) ∧
    (advClassifierFit nbEpoch batches).saves.getD 1 1 = 0 ∧
    (fitTransformFit ts nbEpoch batches).saves.getD 1 1 = 0 ∧
    (advClassifierFit nbEpoch batches).err = none ∧
    (fitTransformFit ts nbEpoch batches).err = none := by
  have hadv := advFitEpochs_normal batches nbEpoch 0
    (fun j hj => by simpa using h2 j (by omega))
  have hft := ftFitEpochs_normal ts batches nbEpoch 0
    (fun j hj => by simpa using h2 j (by omega))
  have hmap : (List.range nbEpoch).map (fun j => 0 + j) = List.range nbEpoch := by
    simp
  have hs1 : (advClassifierFit nbEpoch batches).saves =
      0 :: (List.range nbEpoch ++ [nbEpoch]) := by
    unfold advClassifierFit
    simp only [hadv.2]
    rw [if_neg (by omega)]
    rw [hadv.1, hmap]
    rfl
  have hs2 : (fitTransformFit ts nbEpoch batches).saves =
      0 :: (List.range nbEpoch ++ [nbEpoch]) := by
    unfold fitTransformFit
    simp only [hft.2.2]
    rw [if_neg (by omega)]
    rw [hft.1, hmap]
    rfl
  have he1 : (advClassifierFit nbEpoch batches).err = none := by
    unfold advClassifierFit
    simp only [hadv.2]
    rw [if_neg (by omega)]
  have he2 : (fitTransformFit ts nbEpoch batches).err = none := by
    unfold fitTransformFit
    simp only [hft.2.2]
    rw [if_neg (by omega)]
  obtain ⟨k, rfl⟩ : ∃ k, nbEpoch = k + 1 := ⟨nbEpoch - 1, by omega⟩
  refine ⟨hs1, hs2, ?_, ?_, he1, he2⟩
  · rw [hs1, List.range_succ_eq_map]
    rfl
  · rw [hs2, List.range_succ_eq_map]
    rfl

/-- Witness for C4: two epochs of one-minibatch data on both `fit`s. -/
theorem fit_checkpoint_schedule_witness :
    (advClassifierFit 2 (fun _ => ([5] : List Nat))).saves = [0, 0, 1, 2] ∧
    (fitTransformFit ([] : List (Nat → Nat)) 2 (fun _ => [5])).saves = [0, 0, 1, 2] := by
  have h := fit_checkpoint_schedule ([] : List (Nat → Nat)) 2 (fun _ => [5])
    (by decide) (fun e he => by simp)
  exact ⟨by rw [h.1]; rfl, by rw [h.2.1]; rfl⟩

/-- C9: `fit` with `nb_epoch = 0` (on either class) saves only the initial
step-0 checkpoint and then raises `NameError` reading the unbound loop
variable `epoch` in the final `saver.save(..., global_step=epoch+1)`. -/
theorem fit_zero_epochs_name_error {α : Type} (ts : List (α → α))
    (batches : Nat → List α) :
    advClassifierFit 0 batches =
      { saves := [0], feedInputs := [], err := some .nameError } ∧
    fitTransformFit ts 0 batches =
      { saves := [0], feedInputs := [], err := some .nameError } :=
  ⟨rfl, rfl⟩

/-- C10: `fit` with `nb_epoch >= 1` on a dataset whose `iterbatches` yields
no minibatches saves the initial checkpoint and the epoch-0 checkpoint and
then raises `ZeroDivisionError` in `float(avg_loss)/n_batches` during the
first epoch. -/
theorem fit_empty_dataset_zero_division {α : Type} (ts : List (α → α))
    (nbEpoch : Nat) (batches : Nat → List α) (h1 : 1 ≤ nbEpoch)
    (hb : batches 0 = []) :
    advClassifierFit nbEpoch batches =
      { saves := [0, 0], feedInputs := [], err := some .zeroDivisionError } ∧
    fitTransformFit ts nbEpoch batches =
      { saves := [0, 0], feedInputs := [], err := some .zeroDivisionError } := by
  obtain ⟨k, rfl⟩ : ∃ k, nbEpoch = k + 1 := ⟨nbEpoch - 1, by omega⟩
  constructor
  · unfold advClassifierFit
    simp [advFitEpochs, hb]
  · unfold fitTransformFit
    simp [ftFitEpochs, hb]

/-- Witness for C10 at `nb_epoch = 1` and an empty dataset. -/
theorem fit_empty_dataset_zero_division_witness :
    advClassifierFit 1 (fun _ => ([] : List Nat)) =
      { saves := [0, 0], feedInputs := [], err := some .zeroDivisionError } ∧
    fitTransformFit ([] : List (Nat → Nat)) 1 (fun _ => ([] : List Nat)) =
      { saves := [0, 0], feedInputs := [], err := some .zeroDivisionError } :=
  fit_empty_dataset_zero_division [] 1 (fun _ => []) (by decide) rfl

theorem buildXEvals_eq_replicate {β : Type} (ts : List (List β → List β)) :
    ∀ (n : Nat) (X : List β),
      buildXEvals ts n X = List.replicate n (applyTransformers ts X) := by
  intro n
  induction n with
  | zero => intro X; rfl
  | succ k ih => intro X; rw [List.replicate_succ]; exact congrArg _ (ih X)

theorem zipWith_add_map_mul (c : ℚ) (v : List ℚ) :
    List.zipWith (fun a b => a + b) (v.map (fun x => c * x)) v =
      v.map (fun x => (c + 1) * x) := by
  rw [List.zipWith_map_left, List.zipWith_same]
  refine List.map_congr_left fun x _ => ?_
  ring

theorem foldl_zipWith_replicate (k : Nat) (v : List ℚ) : ∀ (c : ℚ),
    List.foldl (fun acc u => List.zipWith (fun a b => a + b) acc u)
      (v.map (fun x => c * x)) (List.replicate k v) =
      v.map (fun x => (c + (k : ℚ)) * x) := by
  induction k with
  | zero =>
      intro c
      simp
  | succ m ih =>
      intro c
      rw [List.replicate_succ, List.foldl_cons, zipWith_add_map_mul, ih (c + 1)]
      refine List.map_congr_left fun x _ => ?_
      push_cast
      ring

theorem elementwiseMean_replicate_length (n : Nat) (hn : n ≠ 0) (v : List ℚ) :
    (elementwiseMean (List.replicate n v)).length = v.length := by
  obtain ⟨m, rfl⟩ : ∃ m, n = m + 1 := ⟨n - 1, by omega⟩
  rw [List.replicate_succ]
  have hfold : List.foldl (fun acc u => List.zipWith (fun a b => a + b) acc u) v
      (List.replicate m v) = v.map (fun x => ((1 : ℚ) + (m : ℚ)) * x) := by
    have h1 := foldl_zipWith_replicate m v 1
    rw [show v.map (fun x => (1 : ℚ) * x) = v from by simp] at h1
    exact h1
  simp only [elementwiseMean]
  rw [hfold]
  simp

/-- C3: `TensorflowMultiTaskFitTransformRegressor` transforms on the fly.
In `fit`, every minibatch drawn from the dataset is passed through each fit
transformer in list order before the feed dictionary is built; in
`predict_on_batch`, the input `X` is independently transformed `n_evals`
times, the model `M` is run once per transformed copy, and the returned
output is the elementwise mean over the `n_evals` runs. -/
theorem fit_transform_on_the_fly {β : Type} (ts : List (List β → List β))
    (nbEpoch nEvals : Nat) (batches : Nat → List (List β))
    (M : List β → List ℚ) (X : List β)
    (h2 : ∀ e, e < nbEpoch → (batches e).length ≠ 0)
    (hn : 1 ≤ nEvals)
    (hM : (M (applyTransformers ts X)).length = (applyTransformers ts X).length) :
    (fitTransformFit ts nbEpoch batches).feedInputs =
      (List.range nbEpoch).flatMap
        (fun e => (batches e).map (applyTransformers ts)) ∧
    predictOnBatch ts nEvals M X =
      some (elementwiseMean (List.replicate nEvals
        (M (applyTransformers ts X)))) := by
  constructor
  · rcases Nat.eq_zero_or_pos nbEpoch with h0 | hpos
    · subst h0; rfl
    · have hft := ftFitEpochs_normal ts batches nbEpoch 0
        (fun j hj => by
          have h := h2 j (by omega)
          rwa [Nat.zero_add])
      unfold fitTransformFit
      simp only [hft.2.2]
      rw [if_neg (by omega)]
      show (ftFitEpochs ts batches nbEpoch 0).2.1 = _
      rw [hft.2.1]
      congr 1
      funext j
      rw [Nat.zero_add]
  · unfold predictOnBatch
    rw [buildXEvals_eq_replicate]
    simp only []
    rw [List.getLast?_replicate, if_neg (by omega)]
    simp only []
    rw [List.map_replicate]
    congr 1
    have hlen : (elementwiseMean (List.replicate nEvals
        (M (applyTransformers ts X)))).length =
        (M (applyTransformers ts X)).length :=
      elementwiseMean_replicate_length nEvals (by omega) _
    rw [← hM, ← hlen, List.take_length]

/-- Witness for C3: one transformer adding 1, one epoch, two evaluations. -/
theorem fit_transform_on_the_fly_witness :
    (fitTransformFit [fun l => l.map (fun x => x + 1)] 1
      (fun _ => [[1]])).feedInputs = [[(2 : ℚ)]] ∧
    predictOnBatch [fun l => l.map (fun x => x + 1)] 2 (fun l => l)
      [(1 : ℚ), 2] = some [2, 3] := by
  have h := fit_transform_on_the_fly [fun l => l.map (fun x => (x : ℚ) + 1)] 1 2
    (fun _ => [[1]]) (fun l => l) [1, 2] (fun e he => by simp) (by decide) rfl
  refine ⟨?_, ?_⟩
  · rw [h.1]
    show [applyTransformers [fun l => l.map (fun x => (x : ℚ) + 1)] [1]] = [[(2 : ℚ)]]
    norm_num [applyTransformers]
  · rw [h.2]
    show some (elementwiseMean (List.replicate 2
      (applyTransformers [fun l => l.map (fun x => (x : ℚ) + 1)] [1, 2]))) =
      some [(2 : ℚ), 3]
    norm_num [applyTransformers, elementwiseMean, List.replicate]

theorem findVal_taskPairs_labels (f g : Nat → NpVal) :
    ∀ (n task t : Nat), task ≤ t → t < task + n →
      findVal (.labels t) (taskPairs f g task n) = some (f t) := by
  intro n
  induction n with
  | zero => intro task t h1 h2; omega
  | succ k ih =>
      intro task t h1 h2
      rcases Nat.eq_or_lt_of_le h1 with heq | hlt
      · subst heq
        simp [taskPairs, findVal]
      · simp only [taskPairs, findVal]
        rw [if_neg (by simp only [Key.labels.injEq]; omega),
          if_neg (by simp)]
        exact ih (task + 1) t (by omega) (by omega)

theorem findVal_taskPairs_weights (f g : Nat → NpVal) :
    ∀ (n task t : Nat), task ≤ t → t < task + n →
      findVal (.weights t) (taskPairs f g task n) = some (g t) := by
  intro n
  induction n with
  | zero => intro task t h1 h2; omega
  | succ k ih =>
      intro task t h1 h2
      rcases Nat.eq_or_lt_of_le h1 with heq | hlt
      · subst heq
        simp [taskPairs, findVal]
      · simp only [taskPairs, findVal]
        rw [if_neg (by simp), if_neg (by simp only [Key.weights.injEq]; omega)]
        exact ih (task + 1) t (by omega) (by omega)

/-- C6: the feed dictionaries of the classifier and regressor map
`mol_features` to `X_b` and, for every task `t < n_tasks`, `labels_%d` to
`to_one_hot(y_b[:, t])` (classifier; a squeezed one-hot of a zero vector of
length `batch_size` when `y_b` is `None`) respectively the raw column
`y_b[:, t]` (regressor; a squeezed zero vector when `y_b` is `None`), and
`weights_%d` to `w_b[:, t]` (a vector of `batch_size` ones when `w_b` is
`None`), identically in both classes. -/
theorem construct_feed_dict_contents (nTasks batchSize : Nat) (Xb : NpVal)
    (yb wb : Option (List (List ℚ))) :
    findVal .molFeatures (classifierFeedDict nTasks batchSize Xb yb wb) = some Xb ∧
    findVal .molFeatures (regressorFeedDict nTasks batchSize Xb yb wb) = some Xb ∧
    ∀ t, t < nTasks →
      (findVal (.labels t) (classifierFeedDict nTasks batchSize Xb yb wb) =
        some (match yb with
          | some y => .arr2 (toOneHot (col y t))
          | none => npSqueeze (.arr2 (toOneHot (List.replicate batchSize 0)))) ∧
      findVal (.weights t) (classifierFeedDict nTasks batchSize Xb yb wb) =
        some (match wb with
          | some w => .arr1 (col w t)
          | none => .arr1 (List.replicate batchSize 1)) ∧
      findVal (.labels t) (regressorFeedDict nTasks batchSize Xb yb wb) =
        some (match yb with
          | some y => .arr1 (col y t)
          | none => npSqueeze (.arr1 (List.replicate batchSize 0))) ∧
      findVal (.weights t) (regressorFeedDict nTasks batchSize Xb yb wb) =
        findVal (.weights t) (classifierFeedDict nTasks batchSize Xb yb wb)) := by
  refine ⟨by simp [classifierFeedDict, findVal],
    by simp [regressorFeedDict, findVal], ?_⟩
  intro t ht
  refine ⟨?_, ?_, ?_, ?_⟩
  · simp only [classifierFeedDict, findVal]
    rw [if_neg (by simp)]
    exact findVal_taskPairs_labels (classifierLabelOf batchSize yb)
      (weightOf batchSize wb) nTasks 0 t (by omega) (by omega)
  · simp only [classifierFeedDict, findVal]
    rw [if_neg (by simp)]
    exact findVal_taskPairs_weights (classifierLabelOf batchSize yb)
      (weightOf batchSize wb) nTasks 0 t (by omega) (by omega)
  · simp only [regressorFeedDict, findVal]
    rw [if_neg (by simp)]
    exact findVal_taskPairs_labels (regressorLabelOf batchSize yb)
      (weightOf batchSize wb) nTasks 0 t (by omega) (by omega)
  · simp only [regressorFeedDict, classifierFeedDict, findVal]
    rw [if_neg (by simp), if_neg (by simp)]
    rw [findVal_taskPairs_weights (regressorLabelOf batchSize yb)
        (weightOf batchSize wb) nTasks 0 t (by omega) (by omega),
      findVal_taskPairs_weights (classifierLabelOf batchSize yb)
        (weightOf batchSize wb) nTasks 0 t (by omega) (by omega)]

/-- Witness for C6 at `n_tasks = 2`, `batch_size = 1`, `y_b = w_b = None`. -/
theorem construct_feed_dict_contents_witness :
    findVal (.labels 1) (classifierFeedDict 2 1 (.scalar 0) none none) =
      some (npSqueeze (.arr2 (toOneHot (List.replicate 1 0)))) ∧
    findVal (.labels 1) (regressorFeedDict 2 1 (.scalar 0) none none) =
      some (npSqueeze (.arr1 (List.replicate 1 0))) := by
  have h := (construct_feed_dict_contents 2 1 (.scalar 0) none none).2.2 1 (by decide)
  exact ⟨h.1, h.2.2.1⟩

/-- C8 evaluation: running the module-level statements of
`gdb7_tf_model.py` raises `NameError` at line 20, where `train_dataset,
test_dataset = datasets` reads the never-bound global `datasets` (the
assignment that would bind it, line 17, is commented out). -/
theorem gdb7_script_unbound_datasets :
    runScript gdb7Script [] = .error .datasets := rfl

end Fcnet
